import Mathlib

/-!
Verification of the sale/inventory subsystem of the Pharmacy-Management
repository: a shallow embedding of the invoice-creation transaction
(`Invoice.create`), invoice numbering (`Invoice.generateInvoiceNumber`),
the stock ledger mutation, the POST /sales/invoice route validation, and
the error-absorbing read layer (`executeQuery`, `getOne`, `Invoice.getAll`,
`Invoice.search`, `Invoice.getSalesStats`, `Medicine.getAll`).

Database tables are lists of rows; the MySQL transaction is modelled by
returning the pre-transaction state on rollback.  Storage failures that
MySQL can raise at each statement are injected through an `Env` of failure
flags; the UNIQUE constraint on invoices.invoice_number (database_setup.sql)
is modelled inside the invoice insert.
-/

namespace Pharmacy

/-- Calendar date, the components of the JS `new Date()` that the code reads. -/
structure Date where
  year : Nat
  month : Nat
  day : Nat
deriving DecidableEq

/-- JS `String(n).padStart(2, c0)` with pad character "0". -/
def pad2 (n : Nat) : String :=
  let s := toString n
  if s.length ≥ 2 then s else String.mk (List.replicate (2 - s.length) '0') ++ s

/-- JS `s.padStart(3, c0)` with pad character "0", applied to the sequence string. -/
def padStart3 (s : String) : String :=
  if s.length ≥ 3 then s else String.mk (List.replicate (3 - s.length) '0') ++ s

/-- JS `parseInt` restricted to the strings this code feeds it: reads the
leading decimal digits, `none` models NaN (no leading digit). -/
def parseIntJS (s : String) : Option Nat :=
  let ds := s.data.takeWhile (fun c => c.isDigit)
  if ds.isEmpty then none
  else some (ds.foldl (fun a c => a * 10 + (c.toNat - 48)) 0)

/-- Characters after the last dash: the accumulator holds the current segment
reversed, a dash restarts it. -/
def afterLastDash : List Char → List Char → List Char
  | [], acc => acc.reverse
  | c :: rest, acc => if c = '-' then afterLastDash rest [] else afterLastDash rest (c :: acc)

/-- JS `s.split("-").pop()`: the part after the final dash. -/
def lastComponent (s : String) : String := String.mk (afterLastDash s.data [])

/-- SQL `LIKE (pre ++ "%")` for a literal pre: starts-with on the characters. -/
def strStartsWith (pre s : String) : Bool := pre.data.isPrefixOf s.data

/-- Row of the invoices table (the columns the sale subsystem reads or writes). -/
structure InvoiceRow where
  id : Nat
  invoice_number : String
  customer_name : Option String := none
  customer_mobile : Option String := none
  customer_address : Option String := none
  pharmacist_id : Nat := 0
  total_amount : Int := 0
  discount_amount : Int := 0
  final_amount : Int := 0
  payment_method : String := "cash"
  invoice_date : String := ""
deriving DecidableEq

/-- Row of the invoice_items table. -/
structure InvoiceItemRow where
  id : Nat
  invoice_id : Nat
  medicine_id : Nat
  quantity : Int
  unit_price : Int
  total_price : Int
deriving DecidableEq

/-- Row of the stock_movements table. -/
structure StockMovementRow where
  id : Nat
  medicine_id : Nat
  movement_type : String
  quantity : Int
  reference_type : String
  reference_id : Nat
  notes : String
  created_by : Nat
deriving DecidableEq

/-- Row of the medicines table (the columns the sale subsystem touches). -/
structure MedicineRow where
  id : Nat
  medicine_name : String := ""
  quantity_in_stock : Int := 0
  min_stock_level : Int := 0
  is_active : Bool := true
deriving DecidableEq

/-- Row of the users table (the columns joined by the invoice queries). -/
structure UserRow where
  id : Nat
  full_name : String
deriving DecidableEq

/-- The relational state: one list per table plus the AUTO_INCREMENT counters. -/
structure DB where
  invoices : List InvoiceRow := []
  invoice_items : List InvoiceItemRow := []
  medicines : List MedicineRow := []
  stock_movements : List StockMovementRow := []
  users : List UserRow := []
  next_invoice_id : Nat := 1
  next_item_id : Nat := 1
  next_movement_id : Nat := 1
deriving DecidableEq

/-- Ambient execution context: the clock the code reads and the storage-level
failures MySQL may raise at each statement of the transaction (connectivity,
deadlock, constraint violation).  Indexed flags refer to the item loop index. -/
structure Env where
  today : Date
  nowMillis : Nat
  lookupThrows : Bool := false
  lookupFails : Bool := false
  failInvoiceInsert : Bool := false
  failItemInsert : Nat → Bool := fun _ => false
  failStockUpdate : Nat → Bool := fun _ => false
  failMovementInsert : Nat → Bool := fun _ => false
  failCommit : Bool := false
  refetchHeaderFails : Bool := false
  refetchItemsFails : Bool := false

/-- No storage failure occurs during the call. -/
def Env.happy (env : Env) : Prop :=
  env.lookupThrows = false ∧ env.lookupFails = false ∧
  env.failInvoiceInsert = false ∧
  (∀ i, env.failItemInsert i = false) ∧
  (∀ i, env.failStockUpdate i = false) ∧
  (∀ i, env.failMovementInsert i = false) ∧
  env.failCommit = false ∧
  env.refetchHeaderFails = false ∧ env.refetchItemsFails = false

/-- The `INV-YYYYMMDD` date tag built at the top of generateInvoiceNumber. -/
def prefixStr (d : Date) : String :=
  "INV-" ++ toString d.year ++ pad2 d.month ++ pad2 d.day

/-- The row returned by
`SELECT invoice_number FROM invoices WHERE invoice_number LIKE ? ORDER BY id DESC LIMIT 1`:
among the rows matching the pattern, the one with the greatest id. -/
def lastMatching (invs : List InvoiceRow) (pre : String) : Option InvoiceRow :=
  (invs.filter fun r => strStartsWith pre r.invoice_number).foldl
    (fun acc r =>
      match acc with
      | none => some r
      | some b => if b.id < r.id then some r else some b)
    none

/-- Invoice.generateInvoiceNumber.  The catch branch (a thrown lookup error)
returns the `Date.now()` fallback; a lookup that merely reports failure
(`success: false` from getOne) leaves the sequence at 1.  A suffix that
parseInt cannot read is NaN, rendered "NaN" by the template string. -/
def Invoice.generateInvoiceNumber (env : Env) (db : DB) : String :=
  if env.lookupThrows then
    "INV-" ++ toString env.nowMillis
  else
    let pre := prefixStr env.today
    let found : Option InvoiceRow :=
      if env.lookupFails then none else lastMatching db.invoices pre
    let seq : Option Nat :=
      match found with
      | some row =>
        match parseIntJS (lastComponent row.invoice_number) with
        | some n => some (n + 1)
        | none => none
      | none => some 1
    pre ++ "-" ++ padStart3 (match seq with | some n => toString n | none => "NaN")

/-- Modelled from the words of the specification (section 4.1) for comparison:
look up the highest existing invoice number matching the date tag as a
LEXICOGRAPHIC maximum over the invoice_number strings. -/
def charListLt : List Char → List Char → Bool
  | [], [] => false
  | [], _ :: _ => true
  | _ :: _, [] => false
  | a :: as, b :: bs =>
    if a.toNat < b.toNat then true
    else if b.toNat < a.toNat then false
    else charListLt as bs

/-- Modelled from the words of the specification (section 4.1): the
lexicographically greatest invoice number matching the date tag. -/
def specLexLastNumber (invs : List InvoiceRow) (pre : String) : Option String :=
  (invs.filter fun r => strStartsWith pre r.invoice_number).foldl
    (fun acc r =>
      match acc with
      | none => some r.invoice_number
      | some b => if charListLt b.data r.invoice_number.data then some r.invoice_number else some b)
    none

/-- Modelled from the words of the specification (section 4.1): numbering that
increments the suffix of the lexicographic maximum.  Used only to compare the
described algorithm with the implemented one. -/
def specGenerateInvoiceNumberLex (d : Date) (db : DB) : String :=
  let pre := prefixStr d
  let seq : Option Nat :=
    match specLexLastNumber db.invoices pre with
    | some num =>
      match parseIntJS (lastComponent num) with
      | some n => some (n + 1)
      | none => none
    | none => some 1
  pre ++ "-" ++ padStart3 (match seq with | some n => toString n | none => "NaN")

/-- One line of the items list fetched by Invoice.findById (invoice_items
joined with the medicine name). -/
structure FetchedItem where
  item : InvoiceItemRow
  medicine_name : Option String
deriving DecidableEq

/-- The Invoice object the JS class builds: header fields plus the joined
pharmacist name and the fetched items. -/
structure Invoice where
  id : Nat
  invoice_number : String
  customer_name : Option String
  customer_mobile : Option String
  customer_address : Option String
  pharmacist_id : Nat
  total_amount : Int
  discount_amount : Int
  final_amount : Int
  payment_method : String
  invoice_date : String
  pharmacist_name : Option String
  items : List FetchedItem
deriving DecidableEq

/-- The items query of Invoice.findById: invoice_items of the invoice in id
order (insertion order) joined with medicines for the name. -/
def fetchItems (db : DB) (invId : Nat) : List FetchedItem :=
  (db.invoice_items.filter fun ii => ii.invoice_id == invId).map fun ii =>
    { item := ii
      medicine_name := (db.medicines.find? fun m => m.id == ii.medicine_id).map
        (fun m => m.medicine_name) }

/-- Invoice.findById: header row joined with the pharmacist name, then the
items.  A failed header read yields null; a failed items read leaves the
items at the constructor default, the empty list. -/
def Invoice.findById (headerReadFails itemsReadFails : Bool) (db : DB) (id : Nat) :
    Option Invoice :=
  if headerReadFails then none
  else
    match db.invoices.find? fun r => r.id == id with
    | none => none
    | some r =>
      some
        { id := r.id
          invoice_number := r.invoice_number
          customer_name := r.customer_name
          customer_mobile := r.customer_mobile
          customer_address := r.customer_address
          pharmacist_id := r.pharmacist_id
          total_amount := r.total_amount
          discount_amount := r.discount_amount
          final_amount := r.final_amount
          payment_method := r.payment_method
          invoice_date := r.invoice_date
          pharmacist_name := (db.users.find? fun u => u.id == r.pharmacist_id).map
            (fun u => u.full_name)
          items := if itemsReadFails then [] else fetchItems db id }

/-- One element of the items array of a sale request. -/
structure SaleItem where
  medicine_id : Nat
  quantity : Int
  unit_price : Int
  total_price : Int
deriving DecidableEq

/-- The invoiceData argument of Invoice.create; optional fields model the
JS `x || default` coalescing at the insert site. -/
structure InvoiceData where
  customer_name : Option String := none
  customer_mobile : Option String := none
  customer_address : Option String := none
  pharmacist_id : Nat
  total_amount : Int := 0
  discount_amount : Option Int := none
  final_amount : Int := 0
  payment_method : Option String := none
  invoice_date : Option String := none
deriving DecidableEq

/-- JS `new Date().toISOString().split("T")[0]`. -/
def todayISO (d : Date) : String :=
  toString d.year ++ "-" ++ pad2 d.month ++ "-" ++ pad2 d.day

/-- `UPDATE medicines SET quantity_in_stock = quantity_in_stock - ? WHERE id = ?`:
a server-side relative decrement of every row with the given id. -/
def updateStock (ms : List MedicineRow) (mid : Nat) (q : Int) : List MedicineRow :=
  ms.map fun m =>
    if m.id == mid then { m with quantity_in_stock := m.quantity_in_stock - q } else m

/-- The item loop of Invoice.create: per item, insert the invoice_items row,
apply the stock decrement, append the stock_movements row; any statement
failure aborts the transaction (the caller rolls back). -/
def processItems (env : Env) (invoiceId : Nat) (num : String) (pid : Nat) :
    List SaleItem → Nat → DB → Option DB
  | [], _, db => some db
  | it :: rest, i, db =>
    if env.failItemInsert i then none
    else
      let db1 :=
        { db with
          invoice_items := db.invoice_items ++
            [({ id := db.next_item_id, invoice_id := invoiceId,
                medicine_id := it.medicine_id, quantity := it.quantity,
                unit_price := it.unit_price, total_price := it.total_price } : InvoiceItemRow)]
          next_item_id := db.next_item_id + 1 }
      if env.failStockUpdate i then none
      else
        let db2 := { db1 with medicines := updateStock db1.medicines it.medicine_id it.quantity }
        if env.failMovementInsert i then none
        else
          let db3 :=
            { db2 with
              stock_movements := db2.stock_movements ++
                [({ id := db2.next_movement_id, medicine_id := it.medicine_id,
                    movement_type := "out", quantity := it.quantity,
                    reference_type := "sale", reference_id := invoiceId,
                    notes := "Sale via invoice " ++ num, created_by := pid } : StockMovementRow)]
              next_movement_id := db2.next_movement_id + 1 }
          processItems env invoiceId num pid rest (i + 1) db3

/-- Invoice.create: generate the number, insert the header (the UNIQUE
constraint on invoice_number makes a duplicate fail), run the item loop,
commit, re-fetch.  Any failure before the commit rolls the transaction back
to the pre-state and returns null; after the commit, the state persists and
only the re-fetched invoice (possibly null on a read failure) is returned. -/
def Invoice.create (env : Env) (db : DB) (d : InvoiceData) (items : List SaleItem) :
    DB × Option Invoice :=
  let num := Invoice.generateInvoiceNumber env db
  if env.failInvoiceInsert || db.invoices.any (fun r => r.invoice_number == num) then
    (db, none)
  else
    let invoiceId := db.next_invoice_id
    let row : InvoiceRow :=
      { id := invoiceId, invoice_number := num
        customer_name := d.customer_name
        customer_mobile := d.customer_mobile
        customer_address := d.customer_address
        pharmacist_id := d.pharmacist_id
        total_amount := d.total_amount
        discount_amount := d.discount_amount.getD 0
        final_amount := d.final_amount
        payment_method := d.payment_method.getD "cash"
        invoice_date := d.invoice_date.getD (todayISO env.today) }
    let db1 := { db with invoices := db.invoices ++ [row], next_invoice_id := invoiceId + 1 }
    match processItems env invoiceId num d.pharmacist_id items 0 db1 with
    | none => (db, none)
    | some db2 =>
      if env.failCommit then (db, none)
      else (db2, Invoice.findById env.refetchHeaderFails env.refetchItemsFails db2 invoiceId)

/-- Response of the POST /sales/invoice handler. -/
inductive SaleResponse where
  | ok (invoice_id : Nat) (invoice_number : String)
  | badRequest (message : String)
  | serverError (message : String)
deriving DecidableEq

/-- The request body of POST /sales/invoice. -/
structure SaleBody where
  items : List SaleItem
  customer_name : Option String := none
  customer_mobile : Option String := none
  customer_address : Option String := none
  total_amount : Int := 0
  discount_amount : Option Int := none
  final_amount : Int := 0
  payment_method : Option String := none
  invoice_date : Option String := none
deriving DecidableEq

/-- The POST /sales/invoice handler of routes/pharmacist.js: the validator
chain (items a non-empty array, amounts non-negative, first failure reported),
then Invoice.create with the session user as pharmacist. -/
def postSalesInvoice (env : Env) (db : DB) (sessionUserId : Nat) (b : SaleBody) :
    DB × SaleResponse :=
  if b.items.length < 1 then (db, SaleResponse.badRequest "At least one item is required")
  else if b.total_amount < 0 then
    (db, SaleResponse.badRequest "Total amount must be a positive number")
  else if b.final_amount < 0 then
    (db, SaleResponse.badRequest "Final amount must be a positive number")
  else
    let d : InvoiceData :=
      { customer_name := b.customer_name
        customer_mobile := b.customer_mobile
        customer_address := b.customer_address
        pharmacist_id := sessionUserId
        total_amount := b.total_amount
        discount_amount := b.discount_amount
        final_amount := b.final_amount
        payment_method := b.payment_method
        invoice_date := b.invoice_date }
    match Invoice.create env db d b.items with
    | (db2, some inv) => (db2, SaleResponse.ok inv.id inv.invoice_number)
    | (db2, none) => (db2, SaleResponse.serverError "Failed to create invoice")

/-! The read layer of config/database.js and the read methods the implicit
error-absorption claim covers.  The driver outcome of a query is an
`Except`: `error` models a thrown driver error, `ok` the row list. -/

/-- Result shape `{success: true, data}` or `{success: false, error}`. -/
inductive QueryRes (α : Type) where
  | ok (data : α)
  | err (message : String)
deriving DecidableEq

/-- executeQuery: converts a thrown driver error into `{success: false}`;
it never propagates the exception. -/
def executeQuery {α : Type} (raw : Except String (List α)) : QueryRes (List α) :=
  match raw with
  | Except.ok rows => QueryRes.ok rows
  | Except.error e => QueryRes.err e

/-- getOne: like executeQuery but returns `results[0] || null`. -/
def getOne {α : Type} (raw : Except String (List α)) : QueryRes (Option α) :=
  match raw with
  | Except.ok rows => QueryRes.ok rows.head?
  | Except.error e => QueryRes.err e

/-- Row of the invoices query joined with the pharmacist name. -/
structure InvoiceJoinRow where
  row : InvoiceRow
  pharmacist_name : Option String
deriving DecidableEq

/-- `new Invoice(invoiceData)` applied to a joined row: items default empty. -/
def mkInvoiceView (j : InvoiceJoinRow) : Invoice :=
  { id := j.row.id
    invoice_number := j.row.invoice_number
    customer_name := j.row.customer_name
    customer_mobile := j.row.customer_mobile
    customer_address := j.row.customer_address
    pharmacist_id := j.row.pharmacist_id
    total_amount := j.row.total_amount
    discount_amount := j.row.discount_amount
    final_amount := j.row.final_amount
    payment_method := j.row.payment_method
    invoice_date := j.row.invoice_date
    pharmacist_name := j.pharmacist_name
    items := [] }

/-- Invoice.getAll over the outcome of its query: rows are mapped to Invoice
objects, any failure (error result or thrown) yields the empty list. -/
def Invoice.getAll (res : QueryRes (List InvoiceJoinRow)) : List Invoice :=
  match res with
  | QueryRes.ok rows => rows.map mkInvoiceView
  | QueryRes.err _ => []

/-- Invoice.search over the outcome of its query: same absorption shape. -/
def Invoice.search (res : QueryRes (List InvoiceJoinRow)) : List Invoice :=
  match res with
  | QueryRes.ok rows => rows.map mkInvoiceView
  | QueryRes.err _ => []

/-- Medicine.getAll over the outcome of its query: rows on success, the empty
list on any failure. -/
def Medicine.getAll (res : QueryRes (List MedicineRow)) : List MedicineRow :=
  match res with
  | QueryRes.ok rows => rows
  | QueryRes.err _ => []

/-- The aggregate row of the sales statistics query; the SUM and AVG of an
empty set are NULL. -/
structure StatsRow where
  total_invoices : Nat
  total_sales : Option Int
  average_sale : Option Int
deriving DecidableEq

/-- The statistics object Invoice.getSalesStats returns. -/
structure SalesStats where
  total_invoices : Nat
  total_sales : Int
  average_sale : Int
deriving DecidableEq

/-- Invoice.getSalesStats over the outcome of its query: NULL aggregates
coalesce to 0, a missing row or any failure yields the all-zero statistics. -/
def Invoice.getSalesStats (res : QueryRes (Option StatsRow)) : SalesStats :=
  match res with
  | QueryRes.ok (some r) =>
    { total_invoices := r.total_invoices
      total_sales := r.total_sales.getD 0
      average_sale := r.average_sale.getD 0 }
  | QueryRes.ok none => { total_invoices := 0, total_sales := 0, average_sale := 0 }
  | QueryRes.err _ => { total_invoices := 0, total_sales := 0, average_sale := 0 }

/-! Vocabulary for the claims: projections of the state, the pure shape of the
happy-path transaction, and failure-schedule predicates. -/

/-- Stock on hand of a medicine id: the quantity_in_stock of the first row
with that id, none when no such row exists. -/
def stockOfList (ms : List MedicineRow) (mid : Nat) : Option Int :=
  (ms.find? fun m => m.id == mid).map fun m => m.quantity_in_stock

/-- Total quantity the items list sells of one medicine id. -/
def totalQty (items : List SaleItem) (mid : Nat) : Int :=
  ((items.filter fun it => it.medicine_id == mid).map fun it => it.quantity).sum

/-- The stock decrements of the item loop, folded in list order. -/
def stockFold (ms : List MedicineRow) (items : List SaleItem) : List MedicineRow :=
  items.foldl (fun acc it => updateStock acc it.medicine_id it.quantity) ms

/-- The invoice_items rows the item loop inserts, ids from startId. -/
def mkItemRows (startId invId : Nat) : List SaleItem → List InvoiceItemRow
  | [] => []
  | it :: rest =>
    { id := startId, invoice_id := invId, medicine_id := it.medicine_id,
      quantity := it.quantity, unit_price := it.unit_price, total_price := it.total_price }
      :: mkItemRows (startId + 1) invId rest

/-- The stock_movements rows the item loop inserts, ids from startId. -/
def mkMoveRows (startId invId : Nat) (num : String) (pid : Nat) :
    List SaleItem → List StockMovementRow
  | [] => []
  | it :: rest =>
    { id := startId, medicine_id := it.medicine_id, movement_type := "out",
      quantity := it.quantity, reference_type := "sale", reference_id := invId,
      notes := "Sale via invoice " ++ num, created_by := pid }
      :: mkMoveRows (startId + 1) invId num pid rest

/-- The invoice header row Invoice.create inserts. -/
def newInvoiceRow (env : Env) (db : DB) (d : InvoiceData) : InvoiceRow :=
  { id := db.next_invoice_id
    invoice_number := Invoice.generateInvoiceNumber env db
    customer_name := d.customer_name
    customer_mobile := d.customer_mobile
    customer_address := d.customer_address
    pharmacist_id := d.pharmacist_id
    total_amount := d.total_amount
    discount_amount := d.discount_amount.getD 0
    final_amount := d.final_amount
    payment_method := d.payment_method.getD "cash"
    invoice_date := d.invoice_date.getD (todayISO env.today) }

/-- The committed state of a failure-free Invoice.create call. -/
def happyResult (env : Env) (db : DB) (d : InvoiceData) (items : List SaleItem) : DB :=
  { db with
    invoices := db.invoices ++ [newInvoiceRow env db d]
    next_invoice_id := db.next_invoice_id + 1
    invoice_items := db.invoice_items ++ mkItemRows db.next_item_id db.next_invoice_id items
    next_item_id := db.next_item_id + items.length
    medicines := stockFold db.medicines items
    stock_movements := db.stock_movements ++
      mkMoveRows db.next_movement_id db.next_invoice_id
        (Invoice.generateInvoiceNumber env db) d.pharmacist_id items
    next_movement_id := db.next_movement_id + items.length }

/-- Number of stock_movements rows of type out/sale for one medicine
referencing one invoice. -/
def countSaleMovements (l : List StockMovementRow) (invId mid : Nat) : Nat :=
  (l.filter fun mv =>
    mv.medicine_id == mid && mv.movement_type == "out" &&
      mv.reference_type == "sale" && mv.reference_id == invId).length

/-- Some write statement inside the transaction fails: the invoice insert, or
an item insert, stock update or movement insert at a live loop index. -/
def FailsStep (env : Env) (items : List SaleItem) : Prop :=
  env.failInvoiceInsert = true ∨
    ∃ i, i < items.length ∧
      (env.failItemInsert i = true ∨ env.failStockUpdate i = true ∨
        env.failMovementInsert i = true)

/-- The AUTO_INCREMENT invariant of the invoices table: ids of stored rows are
below the counter. -/
def DB.freshIds (db : DB) : Prop :=
  ∀ r ∈ db.invoices, r.id < db.next_invoice_id

/-- No stored child row already references the id the next invoice will get. -/
def DB.freshRefs (db : DB) : Prop :=
  (∀ ii ∈ db.invoice_items, ii.invoice_id ≠ db.next_invoice_id) ∧
    (∀ mv ∈ db.stock_movements, mv.reference_id ≠ db.next_invoice_id)

/-! Concrete instances used by counterexamples and witnesses. -/

/-- A failure-free environment on 2026-10-11. -/
def envH : Env := { today := ⟨2026, 10, 11⟩, nowMillis := 0 }

/-- Environment whose first item insert fails. -/
def envFailItem : Env :=
  { today := ⟨2026, 10, 11⟩, nowMillis := 0, failItemInsert := fun _ => true }

/-- Fallback-branch environment: the number lookup throws, 2026-10-11. -/
def envF1 : Env :=
  { today := ⟨2026, 10, 11⟩, nowMillis := 1730000000000, lookupThrows := true }

/-- Fallback-branch environment: the number lookup throws, one day later but
within the same millisecond. -/
def envF2 : Env :=
  { today := ⟨2026, 10, 12⟩, nowMillis := 1730000000000, lookupThrows := true }

/-- The empty database. -/
def db0 : DB := {}

/-- One medicine with 3 units on hand. -/
def dbC3 : DB :=
  { medicines :=
      [{ id := 1, medicine_name := "Napa", quantity_in_stock := 3, min_stock_level := 10 }] }

/-- One medicine with 100 units on hand. -/
def dbC2 : DB :=
  { medicines :=
      [{ id := 1, medicine_name := "Napa", quantity_in_stock := 100, min_stock_level := 10 }] }

/-- One medicine with 10 units on hand. -/
def dbC6 : DB :=
  { medicines :=
      [{ id := 1, medicine_name := "Napa", quantity_in_stock := 10, min_stock_level := 2 }] }

/-- Two stored invoices of 2026-10-11 where the row with the greater id holds
the lexicographically smaller number. -/
def dbC4 : DB :=
  { invoices := [{ id := 1, invoice_number := "INV-20261011-005" },
      { id := 2, invoice_number := "INV-20261011-002" }]
    next_invoice_id := 3 }

/-- Two stored invoices of 2026-10-11 arranged so that the number derived from
the most recent row collides with an older stored number. -/
def dbC5 : DB :=
  { invoices := [{ id := 1, invoice_number := "INV-20261011-003" },
      { id := 2, invoice_number := "INV-20261011-002" }]
    next_invoice_id := 3 }

/-- A generic sale header for the examples. -/
def dEx : InvoiceData := { pharmacist_id := 7, total_amount := 10, final_amount := 10 }

/-- One line item: 5 units of medicine 1. -/
def itemsQty5 : List SaleItem :=
  [{ medicine_id := 1, quantity := 5, unit_price := 2, total_price := 10 }]

/-- One line item: 3 units of medicine 1. -/
def itemsQty3 : List SaleItem :=
  [{ medicine_id := 1, quantity := 3, unit_price := 2, total_price := 6 }]

/-- Two line items for the same medicine (quantities 2 and 3). -/
def itemsDup : List SaleItem :=
  [{ medicine_id := 1, quantity := 2, unit_price := 1, total_price := 2 },
   { medicine_id := 1, quantity := 3, unit_price := 1, total_price := 3 }]

/-! Lemmas about the transaction body. -/

theorem processItems_happy (env : Env) (h : env.happy) (invId : Nat) (num : String)
    (pid : Nat) :
    ∀ (items : List SaleItem) (i : Nat) (db : DB),
      processItems env invId num pid items i db = some
        { db with
          invoice_items := db.invoice_items ++ mkItemRows db.next_item_id invId items
          next_item_id := db.next_item_id + items.length
          medicines := stockFold db.medicines items
          stock_movements := db.stock_movements ++
            mkMoveRows db.next_movement_id invId num pid items
          next_movement_id := db.next_movement_id + items.length } := by
  obtain ⟨h1, h2, h3, h4, h5, h6, h7, h8, h9⟩ := h
  intro items
  induction items with
  | nil =>
    intro i db
    simp [processItems, mkItemRows, mkMoveRows, stockFold]
  | cons it rest ih =>
    intro i db
    simp only [processItems, h4 i, h5 i, h6 i, Bool.false_eq_true, if_false]
    rw [ih (i + 1)]
    refine congrArg some ?_
    cases db
    simp [mkItemRows, mkMoveRows, stockFold, List.append_assoc]
    omega

theorem create_happy (env : Env) (db : DB) (d : InvoiceData) (items : List SaleItem)
    (h : env.happy) :
    Invoice.create env db d items =
      if db.invoices.any (fun r =>
          r.invoice_number == Invoice.generateInvoiceNumber env db) then
        (db, none)
      else
        (happyResult env db d items,
          Invoice.findById false false (happyResult env db d items) db.next_invoice_id) := by
  obtain ⟨h1, h2, h3, h4, h5, h6, h7, h8, h9⟩ := h
  simp only [Invoice.create, h3, Bool.false_or]
  cases hany : db.invoices.any (fun r =>
      r.invoice_number == Invoice.generateInvoiceNumber env db) with
  | true => simp
  | false =>
    simp only [Bool.false_eq_true, if_false]
    rw [processItems_happy env ⟨h1, h2, h3, h4, h5, h6, h7, h8, h9⟩]
    simp only [h7, Bool.false_eq_true, if_false, h8, h9]
    refine congrArg (fun x => (x, Invoice.findById false false x db.next_invoice_id)) ?_
    cases db
    simp [happyResult, newInvoiceRow]

theorem processItems_fails (env : Env) (invId : Nat) (num : String) (pid : Nat) :
    ∀ (items : List SaleItem) (i0 : Nat) (db : DB),
      (∃ j, j < items.length ∧
        (env.failItemInsert (i0 + j) = true ∨ env.failStockUpdate (i0 + j) = true ∨
          env.failMovementInsert (i0 + j) = true)) →
      processItems env invId num pid items i0 db = none := by
  intro items
  induction items with
  | nil =>
    intro i0 db hj
    obtain ⟨j, hj, _⟩ := hj
    simp at hj
  | cons it rest ih =>
    intro i0 db hj
    cases hA : env.failItemInsert i0 with
    | true => simp [processItems, hA]
    | false =>
      cases hB : env.failStockUpdate i0 with
      | true => simp [processItems, hA, hB]
      | false =>
        cases hC : env.failMovementInsert i0 with
        | true => simp [processItems, hA, hB, hC]
        | false =>
          simp only [processItems, hA, hB, hC, Bool.false_eq_true, if_false]
          obtain ⟨j, hjlen, hflag⟩ := hj
          cases j with
          | zero =>
            rw [Nat.add_zero] at hflag
            rcases hflag with hf | hf | hf
            · rw [hA] at hf; exact absurd hf (by simp)
            · rw [hB] at hf; exact absurd hf (by simp)
            · rw [hC] at hf; exact absurd hf (by simp)
          | succ j2 =>
            refine ih (i0 + 1) _ ⟨j2, ?_, ?_⟩
            · simpa using Nat.lt_of_succ_lt_succ hjlen
            · have : i0 + (j2 + 1) = i0 + 1 + j2 := by omega
              rw [this] at hflag
              exact hflag

theorem create_rollback (env : Env) (db : DB) (d : InvoiceData) (items : List SaleItem)
    (hfail : FailsStep env items) :
    Invoice.create env db d items = (db, none) := by
  cases hcond : (env.failInvoiceInsert ||
      db.invoices.any (fun r =>
        r.invoice_number == Invoice.generateInvoiceNumber env db)) with
  | true => simp [Invoice.create, hcond]
  | false =>
    have hins : env.failInvoiceInsert = false := by
      cases hvi : env.failInvoiceInsert
      · rfl
      · rw [hvi] at hcond; simp at hcond
    rcases hfail with hf | ⟨i, hilen, hflags⟩
    · rw [hins] at hf; exact absurd hf (by simp)
    · have hnone : ∀ dbx : DB,
          processItems env db.next_invoice_id (Invoice.generateInvoiceNumber env db)
            d.pharmacist_id items 0 dbx = none := fun dbx =>
        processItems_fails env db.next_invoice_id (Invoice.generateInvoiceNumber env db)
          d.pharmacist_id items 0 dbx ⟨i, hilen, by simpa using hflags⟩
      simp [Invoice.create, hcond, hnone]

/-! Lemmas about the stock ledger fold. -/

theorem totalQty_cons (it : SaleItem) (rest : List SaleItem) (mid : Nat) :
    totalQty (it :: rest) mid =
      (if it.medicine_id == mid then it.quantity else 0) + totalQty rest mid := by
  simp only [totalQty, List.filter_cons]
  cases hm : (it.medicine_id == mid) with
  | true => simp
  | false => simp

theorem stockFold_eq_map :
    ∀ (items : List SaleItem) (ms : List MedicineRow),
      stockFold ms items = ms.map fun m =>
        { m with quantity_in_stock := m.quantity_in_stock - totalQty items m.id } := by
  intro items
  induction items with
  | nil =>
    intro ms
    have hfun : (fun m : MedicineRow =>
        { m with quantity_in_stock := m.quantity_in_stock - totalQty [] m.id }) = id := by
      funext m
      simp [totalQty]
    rw [hfun, List.map_id]
    simp [stockFold]
  | cons it rest ih =>
    intro ms
    have hstep : stockFold ms (it :: rest) =
        stockFold (updateStock ms it.medicine_id it.quantity) rest := by
      simp [stockFold]
    rw [hstep, ih, updateStock, List.map_map]
    refine List.map_congr_left ?_
    intro m _
    simp only [Function.comp]
    cases hm : (m.id == it.medicine_id) with
    | true =>
      have hid : m.id = it.medicine_id := by simpa using hm
      have hq : (it.medicine_id == m.id) = true := by simp [hid]
      simp only [hm, if_true, totalQty_cons, hq, if_pos]
      have : m.quantity_in_stock - it.quantity - totalQty rest m.id =
          m.quantity_in_stock - (it.quantity + totalQty rest m.id) := by omega
      simp [this]
    | false =>
      have hid : m.id ≠ it.medicine_id := by simpa using hm
      have hq : (it.medicine_id == m.id) = false := by
        simp
        omega
      simp [hm, totalQty_cons, hq]

theorem stockOfList_stockFold (ms : List MedicineRow) (items : List SaleItem) (mid : Nat) :
    stockOfList (stockFold ms items) mid =
      (stockOfList ms mid).map fun q => q - totalQty items mid := by
  rw [stockFold_eq_map, stockOfList, List.find?_map]
  have hp : ((fun m : MedicineRow => m.id == mid) ∘ fun m : MedicineRow =>
      { m with quantity_in_stock := m.quantity_in_stock - totalQty items m.id }) =
      fun m : MedicineRow => m.id == mid := by
    funext m
    rfl
  rw [hp]
  cases hfind : ms.find? (fun m => m.id == mid) with
  | none => simp [stockOfList, hfind]
  | some m =>
    have hid : m.id = mid := by simpa using List.find?_some hfind
    simp [stockOfList, hfind, hid]

/-! Lemmas about the inserted rows and the re-fetch. -/

theorem find?_id_append (l : List InvoiceRow) (n : Nat) (hl : ∀ r ∈ l, r.id ≠ n)
    (row : InvoiceRow) (hrow : row.id = n) :
    (l ++ [row]).find? (fun r => r.id == n) = some row := by
  induction l with
  | nil => simp [List.find?, hrow]
  | cons a l ih =>
    have ha : (a.id == n) = false := by
      simpa using hl a (List.mem_cons_self a l)
    simp only [List.cons_append, List.find?, ha]
    exact ih fun r hr => hl r (List.mem_cons_of_mem a hr)

theorem mkItemRows_length (invId : Nat) :
    ∀ (items : List SaleItem) (s : Nat), (mkItemRows s invId items).length = items.length := by
  intro items
  induction items with
  | nil => intro s; simp [mkItemRows]
  | cons it rest ih => intro s; simp [mkItemRows, ih]

theorem mkItemRows_invoice_id (invId : Nat) :
    ∀ (items : List SaleItem) (s : Nat) (r : InvoiceItemRow),
      r ∈ mkItemRows s invId items → r.invoice_id = invId := by
  intro items
  induction items with
  | nil => intro s r hr; simp [mkItemRows] at hr
  | cons it rest ih =>
    intro s r hr
    rcases List.mem_cons.mp hr with h | h
    · rw [h]
    · exact ih (s + 1) r h

theorem mkMoveRows_count (invId : Nat) (num : String) (pid mid : Nat) :
    ∀ (items : List SaleItem) (s : Nat),
      countSaleMovements (mkMoveRows s invId num pid items) invId mid =
        (items.filter fun it => it.medicine_id == mid).length := by
  intro items
  induction items with
  | nil => intro s; simp [mkMoveRows, countSaleMovements]
  | cons it rest ih =>
    intro s
    simp only [mkMoveRows, countSaleMovements, List.filter_cons]
    cases hm : (it.medicine_id == mid) with
    | true =>
      have := ih (s + 1)
      simp only [countSaleMovements] at this
      simp [hm, this]
    | false =>
      have := ih (s + 1)
      simp only [countSaleMovements] at this
      simp [hm, this]

theorem filter_med_single (items : List SaleItem)
    (hnd : (items.map fun it => it.medicine_id).Nodup) (it : SaleItem) (hmem : it ∈ items) :
    items.filter (fun x => x.medicine_id == it.medicine_id) = [it] := by
  induction items with
  | nil => simp at hmem
  | cons a rest ih =>
    have hnd2 : (∀ x ∈ rest, ¬x.medicine_id = a.medicine_id) ∧
        (List.map (fun y => y.medicine_id) rest).Nodup := by simpa using hnd
    rcases List.mem_cons.mp hmem with h | h
    · subst h
      have hrest : rest.filter (fun x => x.medicine_id == it.medicine_id) = [] := by
        rw [List.filter_eq_nil_iff]
        intro x hx
        simpa using hnd2.1 x hx
      simp [List.filter_cons, hrest]
    · have hane : (a.medicine_id == it.medicine_id) = false := by
        simp only [beq_eq_false_iff_ne, ne_eq]
        intro hae
        exact hnd2.1 it h hae.symm
      simp only [List.filter_cons, hane, Bool.false_eq_true, if_false]
      exact ih hnd2.2 h

theorem totalQty_of_single (items : List SaleItem)
    (hnd : (items.map fun it => it.medicine_id).Nodup) (it : SaleItem) (hmem : it ∈ items) :
    totalQty items it.medicine_id = it.quantity := by
  rw [totalQty, filter_med_single items hnd it hmem]
  simp

theorem fetchItems_happyResult_length (env : Env) (db : DB) (d : InvoiceData)
    (items : List SaleItem)
    (hitems : ∀ ii ∈ db.invoice_items, ii.invoice_id ≠ db.next_invoice_id) :
    (fetchItems (happyResult env db d items) db.next_invoice_id).length = items.length := by
  have hii : (happyResult env db d items).invoice_items =
      db.invoice_items ++ mkItemRows db.next_item_id db.next_invoice_id items := rfl
  rw [fetchItems, hii, List.filter_append]
  have hold : db.invoice_items.filter (fun ii => ii.invoice_id == db.next_invoice_id) = [] := by
    rw [List.filter_eq_nil_iff]
    intro ii hmem
    simpa using hitems ii hmem
  have hnew : (mkItemRows db.next_item_id db.next_invoice_id items).filter
      (fun ii => ii.invoice_id == db.next_invoice_id) =
      mkItemRows db.next_item_id db.next_invoice_id items := by
    rw [List.filter_eq_self]
    intro ii hmem
    simpa using mkItemRows_invoice_id db.next_invoice_id items db.next_item_id ii hmem
  rw [hold, hnew]
  simp [mkItemRows_length]

theorem findById_happyResult (env : Env) (db : DB) (d : InvoiceData) (items : List SaleItem)
    (hfresh : DB.freshIds db)
    (hitems : ∀ ii ∈ db.invoice_items, ii.invoice_id ≠ db.next_invoice_id) :
    ∃ inv : Invoice,
      Invoice.findById false false (happyResult env db d items) db.next_invoice_id =
        some inv ∧
      inv.id = db.next_invoice_id ∧
      inv.invoice_number = Invoice.generateInvoiceNumber env db ∧
      inv.items.length = items.length ∧
      inv.pharmacist_name =
        (db.users.find? fun u => u.id == d.pharmacist_id).map fun u => u.full_name := by
  have hinvs : (happyResult env db d items).invoices =
      db.invoices ++ [newInvoiceRow env db d] := rfl
  have hfind : (happyResult env db d items).invoices.find?
      (fun r => r.id == db.next_invoice_id) = some (newInvoiceRow env db d) := by
    rw [hinvs]
    exact find?_id_append db.invoices db.next_invoice_id
      (fun r hr => Nat.ne_of_lt (hfresh r hr)) (newInvoiceRow env db d) rfl
  simp only [Invoice.findById, Bool.false_eq_true, if_false, hfind]
  refine ⟨_, rfl, rfl, rfl, ?_, rfl⟩
  exact fetchItems_happyResult_length env db d items hitems

theorem count_happyResult (env : Env) (db : DB) (d : InvoiceData) (items : List SaleItem)
    (hmv : ∀ mv ∈ db.stock_movements, mv.reference_id ≠ db.next_invoice_id) (mid : Nat) :
    countSaleMovements (happyResult env db d items).stock_movements db.next_invoice_id mid =
      (items.filter fun it => it.medicine_id == mid).length := by
  have hsm : (happyResult env db d items).stock_movements =
      db.stock_movements ++ mkMoveRows db.next_movement_id db.next_invoice_id
        (Invoice.generateInvoiceNumber env db) d.pharmacist_id items := rfl
  rw [countSaleMovements, hsm, List.filter_append]
  have hold : db.stock_movements.filter (fun mv =>
      mv.medicine_id == mid && mv.movement_type == "out" &&
        mv.reference_type == "sale" && mv.reference_id == db.next_invoice_id) = [] := by
    rw [List.filter_eq_nil_iff]
    intro mv hmem
    have := hmv mv hmem
    simp only [Bool.and_eq_true, beq_iff_eq]
    intro hall
    exact this hall.2
  rw [hold]
  simp only [List.nil_append]
  have := mkMoveRows_count db.next_invoice_id (Invoice.generateInvoiceNumber env db)
    d.pharmacist_id mid items db.next_movement_id
  simpa [countSaleMovements] using this

theorem create_of_happy_isSome (env : Env) (db : DB) (d : InvoiceData)
    (items : List SaleItem) (h : env.happy)
    (hs : (Invoice.create env db d items).2.isSome = true) :
    (db.invoices.any fun r =>
      r.invoice_number == Invoice.generateInvoiceNumber env db) = false ∧
    Invoice.create env db d items =
      (happyResult env db d items,
        Invoice.findById false false (happyResult env db d items) db.next_invoice_id) := by
  rw [create_happy env db d items h] at hs ⊢
  cases hany : (db.invoices.any fun r =>
      r.invoice_number == Invoice.generateInvoiceNumber env db) with
  | true => rw [hany] at hs; simp at hs
  | false => simp [hany]

/-! Remaining helper lemmas. -/

theorem envH_happy : envH.happy :=
  ⟨rfl, rfl, rfl, fun _ => rfl, fun _ => rfl, fun _ => rfl, rfl, rfl, rfl⟩

theorem get_of_eq_some {α : Type} (o : Option α) (v : α) (ho : o = some v)
    (h : o.isSome = true) : o.get h = v := by
  subst ho
  rfl

theorem findById_happyResult_found (env : Env) (db : DB) (d : InvoiceData)
    (items : List SaleItem) (hfresh : DB.freshIds db) :
    ∃ inv : Invoice,
      Invoice.findById false false (happyResult env db d items) db.next_invoice_id =
        some inv ∧
      inv.id = db.next_invoice_id ∧
      inv.invoice_number = Invoice.generateInvoiceNumber env db := by
  have hfind : (happyResult env db d items).invoices.find?
      (fun r => r.id == db.next_invoice_id) = some (newInvoiceRow env db d) := by
    have hinvs : (happyResult env db d items).invoices =
        db.invoices ++ [newInvoiceRow env db d] := rfl
    rw [hinvs]
    exact find?_id_append db.invoices db.next_invoice_id
      (fun r hr => Nat.ne_of_lt (hfresh r hr)) (newInvoiceRow env db d) rfl
  simp only [Invoice.findById, Bool.false_eq_true, if_false, hfind]
  exact ⟨_, rfl, rfl, rfl⟩

theorem happyResult_freshIds (env : Env) (db : DB) (d : InvoiceData)
    (items : List SaleItem) (hfresh : DB.freshIds db) :
    DB.freshIds (happyResult env db d items) := by
  intro r hr
  have hinvs : (happyResult env db d items).invoices =
      db.invoices ++ [newInvoiceRow env db d] := rfl
  rw [hinvs] at hr
  rcases List.mem_append.mp hr with h | h
  · exact Nat.lt_succ_of_lt (hfresh r h)
  · have : r = newInvoiceRow env db d := by simpa using h
    rw [this]
    exact Nat.lt_succ_self _

/-! The claims. -/

/-- C1: Invoice.create is all-or-nothing.  First part: if the invoice insert,
or any item insert, stock update or movement insert of the loop fails, the
whole attempt is rolled back — the call returns the unchanged database and
null.  Second part: a failure-free call commits exactly the happy-path state
(header row, item rows, stock decrements, movement rows) and returns that
invoice re-fetched, carrying its id, its generated number, one fetched item
per input item, and the joined pharmacist name. -/
theorem C1_create_all_or_nothing :
    (∀ (env : Env) (db : DB) (d : InvoiceData) (items : List SaleItem),
      FailsStep env items → Invoice.create env db d items = (db, none)) ∧
    (∀ (env : Env) (db : DB) (d : InvoiceData) (items : List SaleItem),
      env.happy →
      (db.invoices.any fun r =>
        r.invoice_number == Invoice.generateInvoiceNumber env db) = false →
      DB.freshIds db →
      (∀ ii ∈ db.invoice_items, ii.invoice_id ≠ db.next_invoice_id) →
      Invoice.create env db d items =
        (happyResult env db d items,
          Invoice.findById false false (happyResult env db d items) db.next_invoice_id) ∧
      ∃ inv : Invoice,
        (Invoice.create env db d items).2 = some inv ∧
        inv.id = db.next_invoice_id ∧
        inv.invoice_number = Invoice.generateInvoiceNumber env db ∧
        inv.items.length = items.length ∧
        inv.pharmacist_name =
          (db.users.find? fun u => u.id == d.pharmacist_id).map fun u => u.full_name) := by
  constructor
  · intro env db d items hfail
    exact create_rollback env db d items hfail
  · intro env db d items h hany hfresh hitems
    have heq : Invoice.create env db d items =
        (happyResult env db d items,
          Invoice.findById false false (happyResult env db d items) db.next_invoice_id) := by
      rw [create_happy env db d items h, hany]
      simp
    refine ⟨heq, ?_⟩
    obtain ⟨inv, hinv, hid, hnum, hlen, hname⟩ :=
      findById_happyResult env db d items hfresh hitems
    exact ⟨inv, by rw [heq]; exact hinv, hid, hnum, hlen, hname⟩

/-- Witness for C1: a concrete failing first item insert rolls back to the
unchanged database, and a concrete failure-free sale returns a persisted
invoice. -/
theorem C1_create_all_or_nothing_witness :
    Invoice.create envFailItem dbC3 dEx itemsQty5 = (dbC3, none) ∧
    ∃ inv : Invoice,
      (Invoice.create envH dbC3 dEx itemsQty5).2 = some inv ∧
      inv.id = dbC3.next_invoice_id ∧
      inv.invoice_number = Invoice.generateInvoiceNumber envH dbC3 ∧
      inv.items.length = itemsQty5.length ∧
      inv.pharmacist_name =
        (dbC3.users.find? fun u => u.id == dEx.pharmacist_id).map fun u => u.full_name := by
  constructor
  · exact C1_create_all_or_nothing.1 envFailItem dbC3 dEx itemsQty5
      (Or.inr ⟨0, by decide, Or.inl rfl⟩)
  · exact (C1_create_all_or_nothing.2 envH dbC3 dEx itemsQty5 envH_happy (by decide)
      (by simp [DB.freshIds, dbC3]) (by simp [dbC3])).2

/-- C2 (counterexample): a successful sale whose two items reference the SAME
medicine writes TWO out/sale movement rows for that medicine and that invoice,
refuting "exactly one stock_movements row per affected medicine per invoice"
as universally stated (the stock decrement is still the total, 100 - 5 = 95). -/
theorem C2_counterexample :
    (Invoice.create envH dbC2 dEx itemsDup).2.isSome = true ∧
    stockOfList (Invoice.create envH dbC2 dEx itemsDup).1.medicines 1 = some 95 ∧
    countSaleMovements (Invoice.create envH dbC2 dEx itemsDup).1.stock_movements
      dbC2.next_invoice_id 1 = 2 := by
  refine ⟨by decide, by decide, by decide⟩

/-- C2 (amended): for a successful failure-free sale whose items reference
pairwise distinct medicines, every referenced medicine's stock drops by
exactly the quantity sold and exactly one out/sale movement row per medicine
references the new invoice.  (In general the code writes one movement row per
line item, so a medicine repeated across items gets one row per item.) -/
theorem C2_stock_decrement_and_single_movement :
    ∀ (env : Env) (db : DB) (d : InvoiceData) (items : List SaleItem),
      env.happy →
      (db.invoices.any fun r =>
        r.invoice_number == Invoice.generateInvoiceNumber env db) = false →
      (∀ mv ∈ db.stock_movements, mv.reference_id ≠ db.next_invoice_id) →
      (items.map fun it => it.medicine_id).Nodup →
      ∀ it ∈ items,
        stockOfList (Invoice.create env db d items).1.medicines it.medicine_id =
          (stockOfList db.medicines it.medicine_id).map (fun q => q - it.quantity) ∧
        countSaleMovements (Invoice.create env db d items).1.stock_movements
          db.next_invoice_id it.medicine_id = 1 := by
  intro env db d items h hany hmv hnd it hmem
  have heq : (Invoice.create env db d items).1 = happyResult env db d items := by
    rw [create_happy env db d items h, hany]
    simp
  rw [heq]
  constructor
  · have hmed : (happyResult env db d items).medicines = stockFold db.medicines items := rfl
    rw [hmed, stockOfList_stockFold, totalQty_of_single items hnd it hmem]
  · rw [count_happyResult env db d items hmv it.medicine_id,
      filter_med_single items hnd it hmem]
    rfl

/-- Witness for C2 (amended): a concrete distinct-medicine sale of 3 units
against stock 100 leaves 97 and exactly one movement row. -/
theorem C2_stock_decrement_and_single_movement_witness :
    (stockOfList (Invoice.create envH dbC2 dEx itemsQty3).1.medicines 1 =
      (stockOfList dbC2.medicines 1).map (fun q => q - 3) ∧
    countSaleMovements (Invoice.create envH dbC2 dEx itemsQty3).1.stock_movements
      dbC2.next_invoice_id 1 = 1) ∧
    (stockOfList dbC2.medicines 1).map (fun q => q - (3 : Int)) = some 97 := by
  constructor
  · have := C2_stock_decrement_and_single_movement envH dbC2 dEx itemsQty3 envH_happy
      (by decide) (by simp [dbC2]) (by decide)
      { medicine_id := 1, quantity := 3, unit_price := 2, total_price := 6 } (by decide)
    simpa using this
  · decide

/-- C3 (counterexample): the coordinator applies an unconditional decrement —
a successful sale of 5 units against a stock of 3 commits and leaves
quantity_in_stock at -2, refuting "never drives quantity_in_stock below
zero". -/
theorem C3_counterexample :
    (Invoice.create envH dbC3 dEx itemsQty5).2.isSome = true ∧
    stockOfList (Invoice.create envH dbC3 dEx itemsQty5).1.medicines 1 = some (-2) := by
  refine ⟨by decide, by decide⟩

/-- C3 (amended): the decrement is unconditional, so non-negative stock is
preserved exactly when every stored medicine's pre-sale stock is non-negative
and covers the total quantity the sale takes from it. -/
theorem C3_nonneg_only_when_stock_covers :
    ∀ (env : Env) (db : DB) (d : InvoiceData) (items : List SaleItem),
      env.happy →
      (∀ m ∈ db.medicines,
        0 ≤ m.quantity_in_stock ∧ totalQty items m.id ≤ m.quantity_in_stock) →
      ∀ m2 ∈ (Invoice.create env db d items).1.medicines, 0 ≤ m2.quantity_in_stock := by
  intro env db d items h hm
  rw [create_happy env db d items h]
  cases hany : (db.invoices.any fun r =>
      r.invoice_number == Invoice.generateInvoiceNumber env db) with
  | true =>
    simp only [hany, if_true]
    exact fun m2 hm2 => (hm m2 hm2).1
  | false =>
    simp only [hany, Bool.false_eq_true, if_false]
    intro m2 hm2
    have hmed : (happyResult env db d items).medicines = stockFold db.medicines items := rfl
    rw [hmed, stockFold_eq_map] at hm2
    obtain ⟨m, hmmem, rfl⟩ := List.mem_map.mp hm2
    have := (hm m hmmem).2
    simp only
    omega

/-- Witness for C3 (amended): with 100 on hand and 3 sold, the stored row —
left at 97 — is non-negative. -/
theorem C3_nonneg_only_when_stock_covers_witness :
    (0 : Int) ≤
      (MedicineRow.mk 1 "Napa" 97 10 true).quantity_in_stock :=
  C3_nonneg_only_when_stock_covers envH dbC2 dEx itemsQty3 envH_happy (by decide)
    (MedicineRow.mk 1 "Napa" 97 10 true) (by decide)

/-- C4 (counterexample): the implementation selects the matching row with the
greatest id (ORDER BY id DESC), not the lexicographically greatest
invoice_number.  On a state holding "INV-20261011-005" (id 1) and
"INV-20261011-002" (id 2) the code yields "INV-20261011-003" while the
described lexicographic-maximum algorithm yields "INV-20261011-006". -/
theorem C4_counterexample :
    Invoice.generateInvoiceNumber envH dbC4 = "INV-20261011-003" ∧
    specGenerateInvoiceNumberLex envH.today dbC4 = "INV-20261011-006" ∧
    Invoice.generateInvoiceNumber envH dbC4 ≠ specGenerateInvoiceNumberLex envH.today dbC4 := by
  refine ⟨by decide, by decide, by decide⟩

/-- C4 (amended): with a working lookup, generateInvoiceNumber produces
INV-YYYYMMDD-NNN by taking the MOST RECENTLY INSERTED (greatest id) invoice
whose number matches the day tag, parsing its numeric suffix and adding one,
three-zero-padded; when no invoice matches, the sequence starts at 1,
rendered 001. -/
theorem C4_number_from_latest_matching_row :
    ∀ (env : Env) (db : DB),
      env.lookupThrows = false → env.lookupFails = false →
      (lastMatching db.invoices (prefixStr env.today) = none →
        Invoice.generateInvoiceNumber env db =
          prefixStr env.today ++ "-" ++ padStart3 (toString 1)) ∧
      (∀ (r : InvoiceRow) (n : Nat),
        lastMatching db.invoices (prefixStr env.today) = some r →
        parseIntJS (lastComponent r.invoice_number) = some n →
        Invoice.generateInvoiceNumber env db =
          prefixStr env.today ++ "-" ++ padStart3 (toString (n + 1))) ∧
      padStart3 (toString 1) = "001" := by
  intro env db h1 h2
  refine ⟨?_, ?_, by decide⟩
  · intro hnone
    simp [Invoice.generateInvoiceNumber, h1, h2, hnone]
  · intro r n hsome hparse
    simp [Invoice.generateInvoiceNumber, h1, h2, hsome, hparse]

/-- Witness for C4 (amended): the empty state yields INV-20261011-001; on the
concrete two-row state the latest row carries suffix 002, so the next number
is INV-20261011-003. -/
theorem C4_number_from_latest_matching_row_witness :
    Invoice.generateInvoiceNumber envH db0 =
      prefixStr envH.today ++ "-" ++ padStart3 (toString 1) ∧
    Invoice.generateInvoiceNumber envH dbC4 =
      prefixStr envH.today ++ "-" ++ padStart3 (toString (2 + 1)) := by
  constructor
  · exact (C4_number_from_latest_matching_row envH db0 rfl rfl).1 (by decide)
  · exact (C4_number_from_latest_matching_row envH dbC4 rfl rfl).2.1
      { id := 2, invoice_number := "INV-20261011-002" } 2 (by decide) (by decide)

/-- C5 (counterexample): no retry exists.  On a state where the derived
number INV-20261011-003 already exists as an older row, the insert violates
the unique constraint and Invoice.create reports failure at once — returning
the unchanged state and null — although the regenerated number
INV-20261011-004 would have been free. -/
theorem C5_counterexample :
    Invoice.generateInvoiceNumber envH dbC5 = "INV-20261011-003" ∧
    Invoice.create envH dbC5 dEx itemsQty3 = (dbC5, none) ∧
    (dbC5.invoices.any fun r => r.invoice_number == "INV-20261011-004") = false := by
  refine ⟨by decide, by decide, by decide⟩

/-- C5 (amended): a duplicate invoice_number unique-constraint violation is
handled by the generic catch — the transaction rolls back and null is
returned on the first collision, with no regeneration and no retry. -/
theorem C5_collision_fails_without_retry :
    ∀ (env : Env) (db : DB) (d : InvoiceData) (items : List SaleItem),
      (db.invoices.any fun r =>
        r.invoice_number == Invoice.generateInvoiceNumber env db) = true →
      Invoice.create env db d items = (db, none) := by
  intro env db d items hany
  simp [Invoice.create, hany]

/-- Witness for C5 (amended): the concrete colliding state fails cleanly. -/
theorem C5_collision_fails_without_retry_witness :
    Invoice.create envH dbC5 dEx itemsQty3 = (dbC5, none) :=
  C5_collision_fails_without_retry envH dbC5 dEx itemsQty3 (by decide)

/-- C6: the stock decrement is the server-side relative update
quantity_in_stock = quantity_in_stock - q inside the transaction, so two
sales against the same medicine compose: in whichever order the two commits
serialize, the final stock equals the initial stock minus both totals — no
lost update.  In particular two sales of 5 each against 10 leave 0. -/
theorem C6_relative_delta_no_lost_update :
    ∀ (env : Env) (db : DB) (d1 d2 : InvoiceData) (s1 s2 : List SaleItem),
      env.happy →
      (Invoice.create env db d1 s1).2.isSome = true →
      (Invoice.create env (Invoice.create env db d1 s1).1 d2 s2).2.isSome = true →
      (Invoice.create env db d2 s2).2.isSome = true →
      (Invoice.create env (Invoice.create env db d2 s2).1 d1 s1).2.isSome = true →
      ∀ mid : Nat,
        stockOfList
          (Invoice.create env (Invoice.create env db d1 s1).1 d2 s2).1.medicines mid =
          (stockOfList db.medicines mid).map
            (fun q => q - totalQty s1 mid - totalQty s2 mid) ∧
        stockOfList
          (Invoice.create env (Invoice.create env db d2 s2).1 d1 s1).1.medicines mid =
          (stockOfList db.medicines mid).map
            (fun q => q - totalQty s1 mid - totalQty s2 mid) := by
  intro env db d1 d2 s1 s2 h hs1 hs12 hs2 hs21 mid
  have e1 : (Invoice.create env db d1 s1).1 = happyResult env db d1 s1 := by
    rw [(create_of_happy_isSome env db d1 s1 h hs1).2]
  have e2 : (Invoice.create env db d2 s2).1 = happyResult env db d2 s2 := by
    rw [(create_of_happy_isSome env db d2 s2 h hs2).2]
  rw [e1] at hs12 ⊢
  rw [e2] at hs21 ⊢
  have e12 : (Invoice.create env (happyResult env db d1 s1) d2 s2).1 =
      happyResult env (happyResult env db d1 s1) d2 s2 := by
    rw [(create_of_happy_isSome env (happyResult env db d1 s1) d2 s2 h hs12).2]
  have e21 : (Invoice.create env (happyResult env db d2 s2) d1 s1).1 =
      happyResult env (happyResult env db d2 s2) d1 s1 := by
    rw [(create_of_happy_isSome env (happyResult env db d2 s2) d1 s1 h hs21).2]
  rw [e12, e21]
  have m12 : (happyResult env (happyResult env db d1 s1) d2 s2).medicines =
      stockFold (stockFold db.medicines s1) s2 := rfl
  have m21 : (happyResult env (happyResult env db d2 s2) d1 s1).medicines =
      stockFold (stockFold db.medicines s2) s1 := rfl
  rw [m12, m21, stockOfList_stockFold, stockOfList_stockFold,
    stockOfList_stockFold, stockOfList_stockFold]
  cases stockOfList db.medicines mid with
  | none => simp
  | some q =>
    simp only [Option.map_some']
    constructor
    · trivial
    · refine congrArg some ?_
      omega

/-- Witness for C6: two sales of 5 units each against a stock of 10, run in
sequence, leave exactly 0 — both decrements are reflected. -/
theorem C6_relative_delta_no_lost_update_witness :
    stockOfList
      (Invoice.create envH (Invoice.create envH dbC6 dEx itemsQty5).1 dEx itemsQty5).1.medicines
      1 =
      (stockOfList dbC6.medicines 1).map
        (fun q => q - totalQty itemsQty5 1 - totalQty itemsQty5 1) ∧
    (stockOfList dbC6.medicines 1).map
      (fun q => q - totalQty itemsQty5 1 - totalQty itemsQty5 1) = some 0 := by
  constructor
  · exact (C6_relative_delta_no_lost_update envH dbC6 dEx dEx itemsQty5 itemsQty5
      envH_happy (by decide) (by decide) (by decide) (by decide) 1).1
  · decide

/-- C7 (counterexample): Invoice.create itself performs no emptiness check —
called directly with an empty items list on the empty state, it commits an
invoice header with no line items and returns it, so a database row does
persist. -/
theorem C7_counterexample :
    (Invoice.create envH db0 dEx []).2.isSome = true ∧
    (Invoice.create envH db0 dEx []).1.invoices.length = db0.invoices.length + 1 ∧
    (Invoice.create envH db0 dEx []).1.invoice_items = [] := by
  refine ⟨by decide, by decide, by decide⟩

/-- C7 (amended): the POST /sales/invoice route rejects an empty items array
before any database write (the state is returned untouched), but the
coordinator does not defend: Invoice.create invoked directly with an empty
items sequence inserts and commits an invoice header with no line items. -/
theorem C7_route_rejects_empty_but_create_commits :
    (∀ (env : Env) (db : DB) (uid : Nat) (b : SaleBody), b.items = [] →
      postSalesInvoice env db uid b =
        (db, SaleResponse.badRequest "At least one item is required")) ∧
    (∀ (env : Env) (db : DB) (d : InvoiceData),
      env.happy →
      (db.invoices.any fun r =>
        r.invoice_number == Invoice.generateInvoiceNumber env db) = false →
      DB.freshIds db →
      (Invoice.create env db d []).1.invoices = db.invoices ++ [newInvoiceRow env db d] ∧
      (Invoice.create env db d []).1.invoice_items = db.invoice_items ∧
      (Invoice.create env db d []).2.isSome = true) := by
  constructor
  · intro env db uid b hb
    simp [postSalesInvoice, hb]
  · intro env db d h hany hfresh
    have heq : Invoice.create env db d [] =
        (happyResult env db d [],
          Invoice.findById false false (happyResult env db d []) db.next_invoice_id) := by
      rw [create_happy env db d [] h, hany]
      simp
    obtain ⟨inv, hinv, -, -⟩ := findById_happyResult_found env db d [] hfresh
    refine ⟨by rw [heq]; rfl, ?_, ?_⟩
    · rw [heq]
      have : (happyResult env db d []).invoice_items =
          db.invoice_items ++ mkItemRows db.next_item_id db.next_invoice_id [] := rfl
      rw [this, mkItemRows, List.append_nil]
    · rw [heq]
      simp [hinv]

/-- Witness for C7 (amended): a concrete empty-items request is rejected by
the route with the state unchanged, while a direct empty-items create commits
a header row. -/
theorem C7_route_rejects_empty_but_create_commits_witness :
    postSalesInvoice envH db0 7 { items := [] } =
      (db0, SaleResponse.badRequest "At least one item is required") ∧
    (Invoice.create envH db0 dEx []).1.invoices = db0.invoices ++ [newInvoiceRow envH db0 dEx] ∧
    (Invoice.create envH db0 dEx []).1.invoice_items = db0.invoice_items ∧
    (Invoice.create envH db0 dEx []).2.isSome = true := by
  constructor
  · exact C7_route_rejects_empty_but_create_commits.1 envH db0 7 { items := [] } rfl
  · exact C7_route_rejects_empty_but_create_commits.2 envH db0 dEx envH_happy
      (by decide) (by simp [DB.freshIds, db0])

/-- C8 (counterexample): the fallback token is bare INV-<millis>, so two
distinct calls that take the fallback branch within the same millisecond —
here on two different days — produce the SAME token, refuting the guaranteed
uniqueness of the fallback value. -/
theorem C8_counterexample :
    envF1.lookupThrows = true ∧ envF2.lookupThrows = true ∧ envF1.today ≠ envF2.today ∧
    Invoice.generateInvoiceNumber envF1 db0 = Invoice.generateInvoiceNumber envF2 db0 := by
  refine ⟨by decide, by decide, by decide, by decide⟩

/-- C8 (amended): when the lookup throws, generateInvoiceNumber does fall back
to the time-based token INV-<epoch-millis> instead of blocking the sale, but
the token carries no counter or random suffix — any two fallback calls with
equal millisecond clocks yield equal tokens, whatever the rest of the state. -/
theorem C8_fallback_is_bare_timestamp :
    (∀ (env : Env) (db : DB), env.lookupThrows = true →
      Invoice.generateInvoiceNumber env db = "INV-" ++ toString env.nowMillis) ∧
    (∀ (env1 env2 : Env) (db1 db2 : DB),
      env1.lookupThrows = true → env2.lookupThrows = true →
      env1.nowMillis = env2.nowMillis →
      Invoice.generateInvoiceNumber env1 db1 = Invoice.generateInvoiceNumber env2 db2) := by
  constructor
  · intro env db h
    simp [Invoice.generateInvoiceNumber, h]
  · intro env1 env2 db1 db2 ha hb hm
    simp [Invoice.generateInvoiceNumber, ha, hb, hm]

/-- Witness for C8 (amended): both parts at the concrete fallback
environments. -/
theorem C8_fallback_is_bare_timestamp_witness :
    Invoice.generateInvoiceNumber envF1 db0 = "INV-" ++ toString envF1.nowMillis ∧
    Invoice.generateInvoiceNumber envF1 db0 = Invoice.generateInvoiceNumber envF2 dbC4 := by
  constructor
  · exact C8_fallback_is_bare_timestamp.1 envF1 db0 rfl
  · exact C8_fallback_is_bare_timestamp.2 envF1 envF2 db0 dbC4 rfl rfl rfl

/-- C9: Invoice.create is not idempotent.  Running the same payload twice in
sequence (both calls succeeding) yields two invoices with distinct ids and
distinct invoice numbers, and every medicine's stock ends at the initial
value minus twice the payload's total quantity. -/
theorem C9_not_idempotent :
    ∀ (env : Env) (db : DB) (d : InvoiceData) (s : List SaleItem),
      env.happy → DB.freshIds db →
      ∀ (h1 : (Invoice.create env db d s).2.isSome = true)
        (h2 : (Invoice.create env (Invoice.create env db d s).1 d s).2.isSome = true),
        ((Invoice.create env db d s).2.get h1).id ≠
          ((Invoice.create env (Invoice.create env db d s).1 d s).2.get h2).id ∧
        ((Invoice.create env db d s).2.get h1).invoice_number ≠
          ((Invoice.create env (Invoice.create env db d s).1 d s).2.get h2).invoice_number ∧
        ∀ mid : Nat,
          stockOfList
            (Invoice.create env (Invoice.create env db d s).1 d s).1.medicines mid =
            (stockOfList db.medicines mid).map fun q => q - 2 * totalQty s mid := by
  intro env db d s h hfresh h1 h2
  obtain ⟨hany1, e1⟩ := create_of_happy_isSome env db d s h h1
  obtain ⟨inv1, hfid1, hid1, hnum1⟩ := findById_happyResult_found env db d s hfresh
  have hsome1 : (Invoice.create env db d s).2 = some inv1 := by
    rw [e1]
    exact hfid1
  have hget1 : (Invoice.create env db d s).2.get h1 = inv1 :=
    get_of_eq_some _ _ hsome1 h1
  have eB : (Invoice.create env db d s).1 = happyResult env db d s := by rw [e1]
  obtain ⟨hany2, e2⟩ :=
    create_of_happy_isSome env (Invoice.create env db d s).1 d s h h2
  have hfreshB : DB.freshIds (Invoice.create env db d s).1 := by
    rw [eB]
    exact happyResult_freshIds env db d s hfresh
  obtain ⟨inv2, hfid2, hid2, hnum2⟩ :=
    findById_happyResult_found env (Invoice.create env db d s).1 d s hfreshB
  have hsome2 : (Invoice.create env (Invoice.create env db d s).1 d s).2 = some inv2 := by
    rw [e2]
    exact hfid2
  have hget2 : (Invoice.create env (Invoice.create env db d s).1 d s).2.get h2 = inv2 :=
    get_of_eq_some _ _ hsome2 h2
  have hnext : (Invoice.create env db d s).1.next_invoice_id = db.next_invoice_id + 1 := by
    rw [eB]
    rfl
  refine ⟨?_, ?_, ?_⟩
  · rw [hget1, hget2, hid1, hid2, hnext]
    omega
  · rw [hget1, hget2, hnum1, hnum2]
    have hall : ∀ r ∈ (Invoice.create env db d s).1.invoices,
        ¬ r.invoice_number =
          Invoice.generateInvoiceNumber env (Invoice.create env db d s).1 := by
      simpa using hany2
    have hmem : newInvoiceRow env db d ∈ (Invoice.create env db d s).1.invoices := by
      rw [eB]
      exact List.mem_append_right _ (List.mem_singleton.mpr rfl)
    intro hcontra
    exact hall (newInvoiceRow env db d) hmem hcontra
  · intro mid
    have hm2 : (Invoice.create env (Invoice.create env db d s).1 d s).1.medicines =
        stockFold (Invoice.create env db d s).1.medicines s := by
      rw [e2]
      rfl
    have hm1 : (Invoice.create env db d s).1.medicines = stockFold db.medicines s := by
      rw [eB]
      rfl
    rw [hm2, hm1, stockOfList_stockFold, stockOfList_stockFold]
    cases stockOfList db.medicines mid with
    | none => simp
    | some q =>
      simp only [Option.map_some']
      refine congrArg some ?_
      omega

/-- Witness for C9: the identical 3-unit payload submitted twice against a
stock of 100 leaves 94 = 100 - 2 * 3. -/
theorem C9_not_idempotent_witness :
    (stockOfList
      (Invoice.create envH (Invoice.create envH dbC2 dEx itemsQty3).1 dEx itemsQty3).1.medicines
      1 =
      (stockOfList dbC2.medicines 1).map fun q => q - 2 * totalQty itemsQty3 1) ∧
    (stockOfList dbC2.medicines 1).map (fun q => q - 2 * totalQty itemsQty3 1) = some 94 := by
  constructor
  · exact (C9_not_idempotent envH dbC2 dEx itemsQty3 envH_happy
      (by simp [DB.freshIds, dbC2]) (by decide) (by decide)).2.2 1
  · decide

/-- C10: every read path absorbs storage failures into a neutral default —
Invoice.getAll, Invoice.search and Medicine.getAll return the empty list,
Invoice.getSalesStats returns all-zero statistics, executeQuery and getOne
convert a thrown driver error into an error-result value instead of
propagating it — and each failed read is indistinguishable from a read of an
empty table. -/
theorem C10_reads_absorb_failures :
    ∀ e : String,
      Invoice.getAll (QueryRes.err e) = [] ∧
      Invoice.search (QueryRes.err e) = [] ∧
      Medicine.getAll (QueryRes.err e) = [] ∧
      Invoice.getSalesStats (QueryRes.err e) =
        { total_invoices := 0, total_sales := 0, average_sale := 0 } ∧
      executeQuery (α := InvoiceJoinRow) (Except.error e) = QueryRes.err e ∧
      getOne (α := StatsRow) (Except.error e) = QueryRes.err e ∧
      Invoice.getAll (QueryRes.err e) = Invoice.getAll (QueryRes.ok []) ∧
      Invoice.search (QueryRes.err e) = Invoice.search (QueryRes.ok []) ∧
      Medicine.getAll (QueryRes.err e) = Medicine.getAll (QueryRes.ok []) ∧
      Invoice.getSalesStats (QueryRes.err e) = Invoice.getSalesStats (QueryRes.ok none) := by
  intro e
  exact ⟨rfl, rfl, rfl, rfl, rfl, rfl, rfl, rfl, rfl, rfl⟩

end Pharmacy
